import Mathlib

/-
Verification of the heuristic content-analysis pipeline of the `conkord`
repository (`src/app/api/analyze/route.ts`).

The TypeScript source is shallowly embedded below.  Conventions:

* JavaScript numbers are modelled as `ℚ` (all arithmetic in the analyzer is
  exact decimal/rational arithmetic); `Math.round` is `jsRound`
  (round half towards +infinity), `Math.floor`-free code needs nothing else.
* JavaScript strings are Lean `String`s.  The string operations used by the
  source (`includes`, `toLowerCase`, `trim`, `startsWith`, `endsWith`,
  `slice`, `split(' ')[0]`, `join`) are re-implemented structurally on
  `String.data` so that every definition evaluates by kernel reduction.
* DOM access through cheerio is abstracted: a page is modelled by the result
  of each DOM query the extractor performs (`RawDoc`), and parsed JSON-LD
  script blocks are modelled by `Option (List SchemaEntry)` (`none` being a
  block whose JSON failed to parse and is skipped).
* The regex families of the semantic extractors (`findDefinitionStatements`
  and friends) use backreference-free but unbounded patterns (`\w+`,
  `[^.]+`); the regex engine is abstracted as a parameter
  `String → Option (List String)` mimicking `text.match(re)`.  The finitely
  expandable regexes of `checkProblemFraming` are expanded into their exact
  literal alternatives.
* `fetch` and the enrichment service are external effects; they enter the
  embedding as explicit inputs (`String → Option String` for page fetching,
  `Option (List Enrichment)` for the parsed enrichment response).
-/

/-- JavaScript `Math.round`: round half away from zero towards +infinity,
which equals the floor of `x + 1/2` for every real (and rational) `x`. -/
def jsRound (x : ℚ) : ℤ := Int.floor (x + 1/2)

/-- Leading-match test on character lists: `hasLead p l` is true iff `p` is an
initial segment of `l`. -/
def hasLead : List Char → List Char → Bool
  | [], _ => true
  | _ :: _, [] => false
  | a :: as, b :: bs => a == b && hasLead as bs

/-- Substring search on character lists: true iff `needle` occurs contiguously
inside the second list. -/
def hasSub (needle : List Char) : List Char → Bool
  | [] => needle.isEmpty
  | c :: rest => hasLead needle (c :: rest) || hasSub needle rest

/-- JavaScript `hay.includes(needle)`. -/
def strIncludes (hay needle : String) : Bool := hasSub needle.data hay.data

/-- JavaScript `s.startsWith(p)`. -/
def strStarts (s p : String) : Bool := hasLead p.data s.data

/-- JavaScript `s.endsWith(p)`. -/
def strEnds (s p : String) : Bool := hasLead p.data.reverse s.data.reverse

/-- JavaScript `s.toLowerCase()` (ASCII case folding, which is all the
analyzer's keyword comparisons rely on). -/
def strLower (s : String) : String := ⟨s.data.map Char.toLower⟩

/-- Whitespace trimming on character lists. -/
def trimChars (l : List Char) : List Char :=
  ((l.dropWhile Char.isWhitespace).reverse.dropWhile Char.isWhitespace).reverse

/-- JavaScript `s.trim()`. -/
def strTrim (s : String) : String := ⟨trimChars s.data⟩

/-- JavaScript `s.slice(0, n)` (first `n` characters). -/
def strTake (s : String) (n : ℕ) : String := ⟨s.data.take n⟩

/-- JavaScript `s.split(' ')[0]`: the characters before the first space. -/
def firstWordOf (s : String) : String := ⟨s.data.takeWhile (fun c => c != ' ')⟩

/-- JavaScript `xs.join(sep)`. -/
def strJoin (sep : String) : List String → String
  | [] => ""
  | x :: rest => rest.foldl (fun acc y => acc ++ sep ++ y) x

/-- JavaScript `a || b` on strings (empty string is falsy). -/
def jsOrS (a b : String) : String := if a = "" then b else a

/-- JavaScript truthiness of a possibly-undefined string field. -/
def jsTruthy : Option String → Bool
  | none => false
  | some s => s != ""

/-- JavaScript `o || d` where `o` is a possibly-undefined string field. -/
def jsOrD (o : Option String) (d : String) : String :=
  match o with
  | none => d
  | some s => if s = "" then d else s

/-- JavaScript `[...new Set(l)]`: deduplication keeping first occurrences. -/
def jsDedup {α : Type} [DecidableEq α] (l : List α) : List α :=
  l.foldl (fun acc x => if x ∈ acc then acc else acc ++ [x]) []

/-- An evidence record `{url, snippet, location}` attached to a finding. -/
structure Evidence where
  url : String
  snippet : String
  location : String
  deriving DecidableEq

/-- A blocker finding (interface `Blocker` of the source). -/
structure Blocker where
  code : String
  title : String
  description : String
  pillar : String
  severity : ℚ
  evidence : List Evidence
  fixStrategy : String
  deriving DecidableEq

/-- The `@type` value of a JSON-LD object: absent, a single string, or an
array of strings (JavaScript distinguishes the three via `Array.isArray`). -/
inductive JsTypeVal where
  | absent : JsTypeVal
  | single (s : String) : JsTypeVal
  | multiple (l : List String) : JsTypeVal
  deriving DecidableEq

/-- An element of an `@graph` container array (only its `@type` is read). -/
structure GraphItem where
  atType : JsTypeVal
  deriving DecidableEq

/-- One parsed JSON-LD object: its `@type` and, when present AND an array,
its `@graph` container (`none` models both an absent `@graph` and a
non-array one, which the source ignores alike). -/
structure SchemaEntry where
  atType : JsTypeVal
  graph : Option (List GraphItem)
  deriving DecidableEq

/-- Interface `SchemaData` of the source. -/
structure SchemaData where
  types : List String
  hasOrganization : Bool
  hasProduct : Bool
  hasReview : Bool
  hasFAQ : Bool
  hasHowTo : Bool
  raw : List SchemaEntry
  deriving DecidableEq

/-- A heading `{level, text}`. -/
structure Heading where
  level : String
  text : String
  deriving DecidableEq

/-- Hero section `{headline, subheadline}`. -/
structure Hero where
  headline : String
  subheadline : String
  deriving DecidableEq

/-- Page metadata `{title, description}`. -/
structure PageMeta where
  title : String
  description : String
  deriving DecidableEq

/-- An FAQ item `{question, answer}`. -/
structure FAQ where
  question : String
  answer : String
  deriving DecidableEq

/-- Interface `Extraction` of the source: the normalized content record of
one crawled page. -/
structure Extraction where
  url : String
  pageType : String
  meta : PageMeta
  headings : List Heading
  hero : Hero
  paragraphs : List String
  lists : List (List String)
  definitionStatements : List String
  audienceStatements : List String
  claims : List String
  proofPoints : List String
  faqs : List FAQ
  schema : SchemaData
  deriving DecidableEq

/-- Interface `SiteData` of the source (aggregated site-level view). -/
structure SiteData where
  homepage : Option Extraction
  allHeadings : List Heading
  allDefinitions : List String
  allAudienceStatements : List String
  allClaims : List String
  allProofPoints : List String
  allFAQs : List FAQ
  pageTypes : List (String × Extraction)
  deriving DecidableEq

/-- Confidence block of the `Understanding` record. -/
structure Confidence where
  score : ℚ
  level : String
  reason : String
  deriving DecidableEq

/-- Interface `Understanding` of the source. -/
structure Understanding where
  oneLiner : String
  category : String
  audience : String
  useCases : List String
  confusions : List String
  missingForConfidence : List String
  confidence : Confidence
  deriving DecidableEq

/-- Interface `LlmsTxtAnalysis` of the source.  `modifier` is integral
(JavaScript produces it by `Math.round` or the literals `0` and `-5`). -/
structure LlmsTxtAnalysis where
  present : Bool
  aligned : Option Bool
  modifier : ℤ
  notes : List String
  deriving DecidableEq

/-- A page returned by the crawler: `{url, type, html}`. -/
structure CrawledPage where
  url : String
  type : String
  html : String
  deriving DecidableEq

/-- One element of the enrichment response's `enrichments` array; each field
other than `code` may be missing (`none`). -/
structure Enrichment where
  code : String
  siteSpecificIssue : Option String
  concreteExample : Option String
  specificFix : Option String
  deriving DecidableEq

/-- Pillar sub-scores of the result. -/
structure PillarScores where
  clarity : ℤ
  specificity : ℤ
  proof : ℤ
  audience : ℤ
  deriving DecidableEq

/-- Interface `Scores` of the source. -/
structure Scores where
  total : ℤ
  pillars : PillarScores
  deriving DecidableEq

/-- The `@type` values a JSON-LD object contributes at top level
(`if (schema['@type'])`: an absent or empty-string type is falsy and skipped;
an array — even an empty one — is truthy and contributes its elements). -/
def entryTopTypes (e : SchemaEntry) : List String :=
  match e.atType with
  | .absent => []
  | .single s => if s = "" then [] else [s]
  | .multiple l => l

/-- The `@type` values contributed by the entries of an `@graph` container
array, with the same truthiness rule applied per item. -/
def entryGraphTypes (e : SchemaEntry) : List String :=
  (e.graph.getD []).flatMap fun it =>
    match it.atType with
    | .absent => []
    | .single s => if s = "" then [] else [s]
    | .multiple l => l

/-- Keyword test used for `hasOrganization` on TOP-LEVEL entries. -/
def orgTopMatch (t : String) : Bool :=
  strIncludes (strLower t) "organization" || strIncludes (strLower t) "localbusiness"

/-- Keyword test used for `hasProduct` on top-level entries. -/
def productTopMatch (t : String) : Bool :=
  strIncludes (strLower t) "product" || strIncludes (strLower t) "softwareapplication"

/-- Keyword test used for `hasReview` on top-level entries. -/
def reviewTopMatch (t : String) : Bool :=
  strIncludes (strLower t) "review" || strIncludes (strLower t) "aggregaterating"

/-- Keyword test used for `hasFAQ` on top-level entries. -/
def faqTopMatch (t : String) : Bool :=
  strIncludes (strLower t) "faqpage" || strIncludes (strLower t) "question"

/-- Keyword test used for `hasHowTo` (identical at top level and inside
`@graph`). -/
def howToMatch (t : String) : Bool :=
  strIncludes (strLower t) "howto"

/-- Keyword test used for `hasOrganization` on entries INSIDE `@graph`
(note: unlike the top-level scan, `localbusiness` is not checked). -/
def orgGraphMatch (t : String) : Bool :=
  strIncludes (strLower t) "organization"

/-- Keyword test used for `hasProduct` inside `@graph` (no
`softwareapplication`). -/
def productGraphMatch (t : String) : Bool :=
  strIncludes (strLower t) "product"

/-- Keyword test used for `hasReview` inside `@graph` (`rating` instead of
`aggregaterating`). -/
def reviewGraphMatch (t : String) : Bool :=
  strIncludes (strLower t) "review" || strIncludes (strLower t) "rating"

/-- Keyword test used for `hasFAQ` inside `@graph` (`faq` instead of
`faqpage`). -/
def faqGraphMatch (t : String) : Bool :=
  strIncludes (strLower t) "faq" || strIncludes (strLower t) "question"

/-- All successfully parsed JSON-LD objects of a page, in document order
(a `none` block is a malformed-JSON script block, skipped silently). -/
def schemaEntriesOf (blocks : List (Option (List SchemaEntry))) : List SchemaEntry :=
  blocks.flatMap fun b => b.getD []

/-- `extractSchema` of the source, as the denotation of its imperative loop:
`types` collects, per entry, first the top-level `@type` values and then the
`@graph` ones, deduplicated at the end; each boolean flag is the disjunction
over all entries of the matching tests (top-level and `@graph` keyword sets
differ, see the individual match functions); `raw` keeps every parsed
entry. -/
def extractSchema (blocks : List (Option (List SchemaEntry))) : SchemaData :=
  let entries := schemaEntriesOf blocks
  { types := jsDedup (entries.flatMap fun e => entryTopTypes e ++ entryGraphTypes e)
    hasOrganization := entries.any fun e =>
      (entryTopTypes e).any orgTopMatch || (entryGraphTypes e).any orgGraphMatch
    hasProduct := entries.any fun e =>
      (entryTopTypes e).any productTopMatch || (entryGraphTypes e).any productGraphMatch
    hasReview := entries.any fun e =>
      (entryTopTypes e).any reviewTopMatch || (entryGraphTypes e).any reviewGraphMatch
    hasFAQ := entries.any fun e =>
      (entryTopTypes e).any faqTopMatch || (entryGraphTypes e).any faqGraphMatch
    hasHowTo := entries.any fun e =>
      (entryTopTypes e).any howToMatch || (entryGraphTypes e).any howToMatch
    raw := entries }

/-- The DOM queries `extractPage` performs on one page, in document order
(this abstracts cheerio: each field is the text content the corresponding
selector would return, after the boilerplate-node removal the source does
before content extraction). -/
structure RawDoc where
  titleText : String
  metaDescription : Option String
  headingTags : List (String × String)
  h1FirstText : String
  h1ParentFirstP : String
  h1NextP : String
  pTexts : List String
  listGroups : List (List String)
  qaHeadings : List (String × String)
  schemaBlocks : List (Option (List SchemaEntry))
  deriving DecidableEq

/-- `findDefinitionStatements`: for each text, each pattern's matches
(`text.match(re)` is `none` on no match) are trimmed and collected, then the
whole list is deduplicated and capped at 10.  The two regex patterns of the
source are abstracted as the `patterns` parameter. -/
def findDefinitionStatements (patterns : List (String → Option (List String)))
    (texts : List String) : List String :=
  let definitions := texts.flatMap fun text =>
    patterns.flatMap fun p =>
      match p text with
      | none => []
      | some ms => ms.map strTrim
  (jsDedup definitions).take 10

/-- `findAudienceStatements` (cap 10). -/
def findAudienceStatements (patterns : List (String → Option (List String)))
    (texts : List String) : List String :=
  let audiences := texts.flatMap fun text =>
    patterns.flatMap fun p =>
      match p text with
      | none => []
      | some ms => ms.map strTrim
  (jsDedup audiences).take 10

/-- `findClaims` (cap 15). -/
def findClaims (patterns : List (String → Option (List String)))
    (texts : List String) : List String :=
  let claims := texts.flatMap fun text =>
    patterns.flatMap fun p =>
      match p text with
      | none => []
      | some ms => ms.map strTrim
  (jsDedup claims).take 15

/-- `findProofPoints` (cap 15). -/
def findProofPoints (patterns : List (String → Option (List String)))
    (texts : List String) : List String :=
  let proofPoints := texts.flatMap fun text =>
    patterns.flatMap fun p =>
      match p text with
      | none => []
      | some ms => ms.map strTrim
  (jsDedup proofPoints).take 15

/-- The list-extraction loop of `extractPage`: per `ul`/`ol` element, its
`li` texts are trimmed and kept when non-empty and under 500 characters; the
group is pushed when it has between 1 and 19 items.  The number of groups is
not capped. -/
def extractLists (raw : List (List String)) : List (List String) :=
  raw.foldl
    (fun acc items0 =>
      let items := (items0.map strTrim).filter fun t => t != "" && decide (t.length < 500)
      if items.length > 0 && items.length < 20 then acc ++ [items] else acc)
    []

/-- `extractPage` of the source over the abstracted DOM (`RawDoc`) and the
four abstracted regex families. -/
def extractPage (doc : RawDoc) (url : String) (pageType : String)
    (defPatterns audPatterns claimPatterns proofPatterns :
      List (String → Option (List String))) : Extraction :=
  let schemaData := extractSchema doc.schemaBlocks
  let headings := doc.headingTags.filterMap fun ht =>
    let text := strTrim ht.2
    if text ≠ "" ∧ text.length > 2 ∧ text.length < 300
    then some { level := strLower ht.1, text := text }
    else none
  let headline := strTrim doc.h1FirstText
  let subCandidate := jsOrS (strTrim doc.h1ParentFirstP) (strTrim doc.h1NextP)
  let subheadline :=
    if subCandidate ≠ "" ∧ subCandidate.length > 20 ∧ subCandidate.length < 500
    then subCandidate else ""
  let paragraphs :=
    ((doc.pTexts.map strTrim).filter fun t =>
      decide (t.length > 30) && decide (t.length < 2000)).take 30
  let lists := extractLists doc.listGroups
  let faqs := doc.qaHeadings.filterMap fun qa =>
    let text := strTrim qa.1
    if strIncludes text "?" || strStarts (strLower text) "what" ||
        strStarts (strLower text) "how" || strStarts (strLower text) "why" then
      let answer := strTrim qa.2
      if answer ≠ "" ∧ answer.length > 20
      then some { question := text, answer := strTake answer 500 }
      else none
    else none
  let allText :=
    ([headline, subheadline] ++ headings.map (fun h => h.text) ++ paragraphs).filter
      fun s => s != ""
  { url := url
    pageType := pageType
    meta := { title := strTrim doc.titleText, description := doc.metaDescription.getD "" }
    headings := headings
    hero := { headline := headline, subheadline := subheadline }
    paragraphs := paragraphs
    lists := lists
    definitionStatements := findDefinitionStatements defPatterns allText
    audienceStatements := findAudienceStatements audPatterns allText
    claims := findClaims claimPatterns allText
    proofPoints := findProofPoints proofPatterns allText
    faqs := faqs
    schema := schemaData }

/-- `detectPageType` of the source: fixed keyword-substring mapping on the
path, first match wins. -/
def detectPageType (path : String) : String :=
  let p := strLower path
  if p = "/" || p = "" then "homepage"
  else if strIncludes p "pricing" then "pricing"
  else if strIncludes p "about" then "about"
  else if strIncludes p "feature" then "features"
  else if strIncludes p "product" then "product"
  else if strIncludes p "faq" then "faq"
  else "other"

/-- Static-asset extensions skipped by the crawler. -/
def staticExts : List String :=
  [".png", ".jpg", ".jpeg", ".gif", ".svg", ".css", ".js", ".pdf", ".zip"]

/-- `shouldSkipPath` of the source (its five regexes written out: asset
extension at end, non-content path heads, listing-path heads, query string,
fragment; the first three are case-insensitive). -/
def shouldSkipPath (path : String) : Bool :=
  let p := strLower path
  staticExts.any (fun e => strEnds p e) ||
  (["/wp-", "/admin", "/login", "/signup", "/cart", "/checkout", "/account"].any
    fun s => strStarts p s) ||
  (["/tag/", "/category/", "/author/"].any fun s => strStarts p s) ||
  strIncludes path "?" || strIncludes path "#"

/-- The fixed priority path list of `crawlSite`. -/
def priorityPaths : List String :=
  ["/", "/about", "/about-us", "/pricing", "/features", "/product", "/solutions", "/faq"]

/-- The page-collection loop of `crawlSite` (`for (const path of allPaths)`):
stops as soon as 8 pages are collected; skips already-crawled URLs and
excluded paths; a failed fetch (`none`) is skipped silently. -/
def crawlLoop (fetch : String → Option String) (origin : String) :
    List String → List CrawledPage → List String → List CrawledPage
  | [], results, _ => results
  | path :: rest, results, crawled =>
    if results.length ≥ 8 then results
    else
      let pageUrl := origin ++ path
      if pageUrl ∈ crawled then crawlLoop fetch origin rest results crawled
      else if shouldSkipPath path then crawlLoop fetch origin rest results crawled
      else
        match fetch pageUrl with
        | some html =>
          crawlLoop fetch origin rest
            (results ++ [{ url := pageUrl, type := detectPageType path, html := html }])
            (crawled ++ [pageUrl])
        | none => crawlLoop fetch origin rest results crawled

/-- The page list produced by `crawlSite` after a successful homepage fetch:
the homepage first, then the loop over the deduplicated union of the priority
paths and the same-origin links discovered in the homepage markup.  `fetch`
abstracts `fetchPage` (`none` is any fetch failure), and `discoveredLinks`
abstracts the cheerio anchor scan. -/
def crawlSitePages (fetch : String → Option String) (origin homepageHtml : String)
    (discoveredLinks : List String) : List CrawledPage :=
  let results : List CrawledPage := [{ url := origin, type := "homepage", html := homepageHtml }]
  let crawled := [origin, origin ++ "/"]
  let allPaths := jsDedup (priorityPaths ++ discoveredLinks)
  crawlLoop fetch origin allPaths results crawled

/-- The `SPECIFICITY_NO_SCHEMA` blocker literal of `checkSchemaMarkup`. -/
def noSchemaBlocker : Blocker :=
  { code := "SPECIFICITY_NO_SCHEMA"
    title := "No structured data (schema markup) found"
    description := "AI systems prioritize structured data they can parse directly. Your site has no JSON-LD schema markup, forcing AI to guess what information means."
    pillar := "specificity"
    severity := 82
    evidence := [{ url := "Site-wide", snippet := "No JSON-LD schema detected on any page", location := "All pages" }]
    fixStrategy := "Add JSON-LD schema markup. At minimum: Organization schema on homepage, and Product/Service schema for your offering." }

/-- The `SPECIFICITY_NO_ORG_SCHEMA` blocker of `checkSchemaMarkup`. -/
def noOrgSchemaBlocker (siteData : SiteData) (allSchemaTypes : List String) : Blocker :=
  { code := "SPECIFICITY_NO_ORG_SCHEMA"
    title := "Missing Organization schema"
    description := "AI cannot find structured data about who you are. Organization schema helps AI cite your company name, logo, and contact info confidently."
    pillar := "specificity"
    severity := 68
    evidence := [{ url := (match siteData.homepage with
                           | none => "Homepage"
                           | some h => jsOrS h.url "Homepage")
                   snippet := "Found schema types: " ++ jsOrS (strJoin ", " allSchemaTypes) "none"
                   location := "Homepage" }]
    fixStrategy := "Add Organization schema with name, description, logo, and contactPoint." }

/-- The `PROOF_NO_REVIEW_SCHEMA` blocker of `checkSchemaMarkup`. -/
def noReviewSchemaBlocker : Blocker :=
  { code := "PROOF_NO_REVIEW_SCHEMA"
    title := "Testimonials exist but no Review schema"
    description := "You have social proof on your site, but AI cannot parse it as structured reviews. Adding Review/AggregateRating schema makes proof quotable."
    pillar := "proof"
    severity := 60
    evidence := [{ url := "Site-wide", snippet := "Proof points found but no Review schema", location := "Content" }]
    fixStrategy := "Add AggregateRating or Review schema to make your testimonials machine-readable." }

/-- The `SPECIFICITY_NO_FAQ_SCHEMA` blocker of `checkSchemaMarkup` (tagged
with the `audience` pillar in the source). -/
def noFaqSchemaBlocker (faqCount : ℕ) : Blocker :=
  { code := "SPECIFICITY_NO_FAQ_SCHEMA"
    title := "FAQ content exists but no FAQPage schema"
    description := "Your site has Q&A content that could directly match user queries, but it\x27s not in schema format. FAQPage schema dramatically improves AI matching."
    pillar := "audience"
    severity := 55
    evidence := [{ url := "Site-wide"
                   snippet := "Found " ++ toString faqCount ++ " FAQ items without schema"
                   location := "FAQ content" }]
    fixStrategy := "Add FAQPage schema to your FAQ content. This directly maps to how users ask AI questions." }

/-- `checkSchemaMarkup` of the source: aggregate the per-page schema
summaries; with no schema anywhere return only `SPECIFICITY_NO_SCHEMA`
(early return — the finer checks are skipped); otherwise emit the missing
organization / review / FAQ findings under their conditions. -/
def checkSchemaMarkup (siteData : SiteData) (extractions : List Extraction) : List Blocker :=
  let allSchemaTypes := jsDedup (extractions.flatMap fun e => e.schema.types)
  let hasAnySchema := extractions.any fun e => decide (e.schema.types.length > 0)
  let hasOrganization := extractions.any fun e => e.schema.hasOrganization
  let hasReview := extractions.any fun e => e.schema.hasReview
  let hasFAQ := extractions.any fun e => e.schema.hasFAQ
  if !hasAnySchema then [noSchemaBlocker]
  else
    (if !hasOrganization then [noOrgSchemaBlocker siteData allSchemaTypes] else []) ++
    (if !hasReview && decide (siteData.allProofPoints.length > 0)
     then [noReviewSchemaBlocker] else []) ++
    (if !hasFAQ && decide (siteData.allFAQs.length > 0)
     then [noFaqSchemaBlocker siteData.allFAQs.length] else [])

/-- The problem-indicating regexes of `checkProblemFraming`, expanded into
their exact literal alternatives (each regex is a case-insensitive
alternation of literals and optional single characters; the scanned content
is lowercased first, so lowercase literals are equivalent). -/
def problemLiterals : List String :=
  ["struggling with", "tired of", "frustrated by",
   "challenge of", "challenge with", "challenge in",
   "challenges of", "challenges with", "challenges in",
   "challenged of", "challenged with", "challenged in",
   "problem of", "problem with", "problem in", "problem like",
   "problems of", "problems with", "problems in", "problems like",
   "pain point",
   "do you having", "do you facing", "do you dealing",
   "are you having", "are you facing", "are you dealing",
   "hard to", "difficult to", "tough to",
   "waste time", "waste money", "waste hours",
   "wastes time", "wastes money", "wastes hours",
   "wasted time", "wasted money", "wasted hours",
   "stop the", "stop your", "eliminate the", "eliminate your",
   "end the", "end your", "fix the", "fix your", "solve the", "solve your",
   "what if you could",
   "imagine if", "imagine a world", "imagine being able"]

/-- The solution-only regexes of `checkProblemFraming`, expanded. -/
def solutionOnlyLiterals : List String :=
  ["we provide", "we offer", "we deliver", "we build", "we create",
   "our platform", "our solution", "our tool", "our software", "our product",
   "the platform", "the solution", "the tool", "the software", "the product",
   "leading provider", "leading solution", "leading platform",
   "best provider", "best solution", "best platform",
   "top provider", "top solution", "top platform",
   "premier provider", "premier solution", "premier platform"]

/-- The question-indicator regex of `checkProblemFraming`, expanded. -/
def questionLiterals : List String :=
  ["do you", "are you", "have you", "what if", "why do", "how do"]

/-- The `CLARITY_NO_PROBLEM_FRAMING` blocker of `checkProblemFraming`. -/
def noProblemFramingBlocker (siteData : SiteData) : Blocker :=
  { code := "CLARITY_NO_PROBLEM_FRAMING"
    title := "Describes solution without the problem"
    description := "AI expands user queries into problems. Your site only describes what you do, not what problem you solve."
    pillar := "clarity"
    severity := 78
    evidence := [{ url := (match siteData.homepage with
                           | none => "Homepage"
                           | some h => jsOrS h.url "Homepage")
                   snippet := (match siteData.homepage with
                               | none => "Site content"
                               | some h => jsOrS h.hero.headline "Site content")
                   location := "Homepage and key pages" }]
    fixStrategy := "Use problem-first copy: \"We solve [X problem] with [Y solution] for [Z industries/audience].\" This structure directly matches how users ask AI for recommendations." }

/-- The `CLARITY_NO_QUERY_MATCHING` blocker of `checkProblemFraming`.  Note
its `pillar` field is `audience`, not `clarity`, despite the code. -/
def noQueryMatchingBlocker : Blocker :=
  { code := "CLARITY_NO_QUERY_MATCHING"
    title := "No question-based framing"
    description := "AI matches user questions to content. Your site has no questions that mirror how users ask for recommendations."
    pillar := "audience"
    severity := 65
    evidence := [{ url := "Site-wide", snippet := "No user-facing questions found", location := "All content" }]
    fixStrategy := "Add FAQ or question-based sections: \"Looking for X?\" or \"Struggling with Y?\"" }

/-- `checkProblemFraming` of the source: all hero and paragraph text is
joined with spaces and lowercased; `CLARITY_NO_PROBLEM_FRAMING` fires when
solution-only phrasing appears without problem phrasing, and
`CLARITY_NO_QUERY_MATCHING` fires when neither question phrasing (a `?`
together with a question opener) nor problem phrasing appears. -/
def checkProblemFraming (siteData : SiteData) (extractions : List Extraction) : List Blocker :=
  let allContent := strLower (strJoin " "
    ((extractions.flatMap fun e => [e.hero.headline, e.hero.subheadline] ++ e.paragraphs).filter
      fun s => s != ""))
  let hasProblemFraming := problemLiterals.any fun p => strIncludes allContent p
  let hasSolutionOnly := solutionOnlyLiterals.any fun p => strIncludes allContent p
  let framingFindings :=
    if !hasProblemFraming && hasSolutionOnly then [noProblemFramingBlocker siteData] else []
  let hasQuestions :=
    strIncludes allContent "?" && questionLiterals.any fun p => strIncludes allContent p
  let queryFindings :=
    if !hasQuestions && !hasProblemFraming then [noQueryMatchingBlocker] else []
  framingFindings ++ queryFindings

/-- The marketing-fluff word list of `analyzeLlmsTxt`. -/
def fluffWords : List String :=
  ["revolutionary", "best-in-class", "world-class", "cutting-edge", "game-changing"]

/-- The number of the four alignment checks of `analyzeLlmsTxt` that pass on
a present, non-empty manifest `s`: (1) the manifest mentions the first word
of the lowercased site title, (2) it mentions the first word of the
lowercased understanding category, (3) it is under 2000 characters and
contains a heading marker, (4) it contains no marketing-fluff word. -/
def alignChecksCount (s : String) (siteData : SiteData) (understanding : Understanding) : ℕ :=
  let llmsLower := strLower s
  let siteName := match siteData.homepage with
                  | none => ""
                  | some h => strLower h.meta.title
  let check1 := siteName != "" && strIncludes llmsLower (firstWordOf siteName)
  let category := strLower understanding.category
  let check2 := category != "" && strIncludes llmsLower (firstWordOf category)
  let check3 := decide (s.length < 2000) && strIncludes s "#"
  let check4 := !(fluffWords.any fun w => strIncludes llmsLower w)
  (cond check1 1 0) + (cond check2 1 0) + (cond check3 1 0) + (cond check4 1 0)

/-- The present-manifest branch of `analyzeLlmsTxt`: the four checks (via
`alignChecksCount`), the alignment ratio, and the modifier
(`round(3 + ratio*2)` when the ratio reaches one half, `-5` otherwise). -/
def analyzeLlmsTxtPresent (s : String) (siteData : SiteData)
    (understanding : Understanding) : LlmsTxtAnalysis :=
  let llmsLower := strLower s
  let siteName := match siteData.homepage with
                  | none => ""
                  | some h => strLower h.meta.title
  let check1 := siteName != "" && strIncludes llmsLower (firstWordOf siteName)
  let category := strLower understanding.category
  let check2 := category != "" && strIncludes llmsLower (firstWordOf category)
  let check3 := decide (s.length < 2000) && strIncludes s "#"
  let check4 := !(fluffWords.any fun w => strIncludes llmsLower w)
  let alignmentScore := alignChecksCount s siteData understanding
  let alignFrac : ℚ := (alignmentScore : ℚ) / 4
  let alignedB : Bool := decide (alignFrac ≥ 0.5)
  let modifier : ℤ := if alignedB then jsRound (3 + alignFrac * 2) else -5
  { present := true
    aligned := some alignedB
    modifier := modifier
    notes := ["llms.txt found"] ++
      (if check1 then ["Product name matches"] else []) ++
      (if check2 then ["Category aligns"] else []) ++
      (if check3 then ["Well-structured format"]
       else if decide (s.length > 5000) then ["llms.txt may be too verbose"] else []) ++
      (if check4 then ["No marketing fluff detected"]
       else ["Contains marketing language (reduces trust)"]) ++
      (if alignedB then ["Alignment bonus: +" ++ toString modifier ++ "%"]
       else ["Misalignment penalty: -5%"]) }

/-- `analyzeLlmsTxt` of the source.  `!llmsTxt` is true both for a missing
manifest and for an empty-string manifest, so both yield the neutral
result; otherwise the alignment ratio over the four checks decides
`aligned` and the modifier. -/
def analyzeLlmsTxt (llmsTxt : Option String) (siteData : SiteData)
    (understanding : Understanding) : LlmsTxtAnalysis :=
  match llmsTxt with
  | none =>
    { present := false, aligned := none, modifier := 0, notes := ["No llms.txt found (neutral)"] }
  | some s =>
    if s = "" then
      { present := false, aligned := none, modifier := 0, notes := ["No llms.txt found (neutral)"] }
    else
      analyzeLlmsTxtPresent s siteData understanding

/-- The per-blocker merge step of `enrichBlockersWithGPT`'s
`blockers.map(...)`: a blocker whose code matches no enrichment is kept; a
matched blocker gets `description` and `fixStrategy` replaced when the
enrichment provides truthy values, and its `evidence` replaced by a single
entry spreading the FIRST original evidence entry with a possibly-new
snippet.  When the original evidence list is empty the spread of `undefined`
yields an entry with only a snippet if `concreteExample` is truthy, and
accessing `.snippet` of `undefined` throws otherwise (`Except.error`, the
exception caught by the enclosing `try`); the undefined `url`/`location`
are modelled as `""`. -/
def enrichOne (enrichments : List Enrichment) (b : Blocker) : Except Unit Blocker :=
  match enrichments.find? (fun e => e.code == b.code) with
  | none => .ok b
  | some enr =>
    match b.evidence with
    | e0 :: _ =>
      .ok { b with
            description := jsOrD enr.siteSpecificIssue b.description
            evidence := [{ e0 with snippet := jsOrD enr.concreteExample e0.snippet }]
            fixStrategy := jsOrD enr.specificFix b.fixStrategy }
    | [] =>
      match enr.concreteExample with
      | some s =>
        if s = "" then .error ()
        else
          .ok { b with
                description := jsOrD enr.siteSpecificIssue b.description
                evidence := [{ url := "", snippet := s, location := "" }]
                fixStrategy := jsOrD enr.specificFix b.fixStrategy }
      | none => .error ()

/-- JavaScript's `blockers.map(...)` under exceptions: elements are processed
left to right and the first thrown exception aborts the whole map. -/
def tryMapEnrich (enrichments : List Enrichment) : List Blocker → Except Unit (List Blocker)
  | [] => .ok []
  | b :: bs =>
    match enrichOne enrichments b, tryMapEnrich enrichments bs with
    | .ok b2, .ok rest => .ok (b2 :: rest)
    | .error e, _ => .error e
    | _, .error e => .error e

/-- `enrichBlockersWithGPT` of the source.  The external request and response
parsing are abstracted into `response : Option (List Enrichment)`: `none`
covers a failed request, a non-2xx status, a missing message, unparseable
JSON, and a missing or non-array `enrichments` field — every such path
returns the input unchanged, as does a thrown merge exception (the
`try`/`catch` of the source). -/
def enrichBlockersWithGPT (blockers : List Blocker)
    (response : Option (List Enrichment)) : List Blocker :=
  if blockers.isEmpty then blockers
  else
    match response with
    | none => blockers
    | some enrichments =>
      match tryMapEnrich enrichments blockers with
      | .ok enriched => enriched
      | .error _ => blockers

/-- The per-pillar score of `calculateScores`: 100 with no blockers in the
pillar, otherwise `max(0, round(100 - min(avg * (1 + (count-1)*0.2), 100)))`
with `avg` the mean severity. -/
def pillarScore (blockerList : List Blocker) : ℤ :=
  if blockerList.length = 0 then 100
  else
    let totalSeverity : ℚ := blockerList.foldl (fun sum b => sum + b.severity) 0
    let avgSeverity := totalSeverity / (blockerList.length : ℚ)
    let penalty := min (avgSeverity * (1 + ((blockerList.length : ℚ) - 1) * 0.2)) 100
    max 0 (jsRound (100 - penalty))

/-- `calculateScores` of the source: fixed weights clarity 25 / specificity
35 / proof 25 / audience 15; per-pillar scores via `pillarScore` on the
pillar-filtered blocker lists; total as the weighted sum, clamped to
`[0, 100]` after adding the manifest modifier, then rounded. -/
def calculateScores (blockers : List Blocker) (llmsTxtModifier : ℚ) : Scores :=
  let clarityBlockers := blockers.filter fun b => b.pillar == "clarity"
  let specificityBlockers := blockers.filter fun b => b.pillar == "specificity"
  let proofBlockers := blockers.filter fun b => b.pillar == "proof"
  let audienceBlockers := blockers.filter fun b => b.pillar == "audience"
  let clarityScore := pillarScore clarityBlockers
  let specificityScore := pillarScore specificityBlockers
  let proofScore := pillarScore proofBlockers
  let audienceScore := pillarScore audienceBlockers
  let totalScore : ℚ :=
    ((clarityScore : ℚ) * 25) / 100 + ((specificityScore : ℚ) * 35) / 100 +
    ((proofScore : ℚ) * 25) / 100 + ((audienceScore : ℚ) * 15) / 100
  let clamped := max 0 (min 100 (totalScore + llmsTxtModifier))
  { total := jsRound clamped
    pillars := { clarity := clarityScore, specificity := specificityScore,
                 proof := proofScore, audience := audienceScore } }

/-- Mean of a list of rationals, written from the spec's words
(`avgSeverity = mean(severity of that pillar's blockers)`). -/
def specMean (l : List ℚ) : ℚ := l.sum / (l.length : ℚ)

/-- Pillar score as the spec states it: 100 with no blockers, otherwise
`max(0, round(100 - penalty))` with
`penalty = min(avgSeverity * (1 + 0.2*(count-1)), 100)`. -/
def specPillarScore (severities : List ℚ) : ℤ :=
  if severities.isEmpty then 100
  else
    max 0 (jsRound (100 -
      min (specMean severities * (1 + 0.2 * ((severities.length : ℚ) - 1))) 100))

/-- Modelled from the spec (section 4.6): the scorer as the specification
formulates it, to be compared against `calculateScores`.  Weights
clarity 25, specificity 35, proof 25, audience 15 (they sum to 100);
`total = Σ(pillarScore * weight/100)`, then clamped to `[0, 100]` after
adding the manifest modifier, then rounded to the nearest integer. -/
def specCalculateScores (blockers : List Blocker) (modifier : ℚ) : Scores :=
  let score (p : String) : ℤ :=
    specPillarScore ((blockers.filter fun b => b.pillar == p).map fun b => b.severity)
  let weighted : ℚ :=
    (score "clarity" : ℚ) * (25 / 100) + (score "specificity" : ℚ) * (35 / 100) +
    (score "proof" : ℚ) * (25 / 100) + (score "audience" : ℚ) * (15 / 100)
  { total := jsRound (max 0 (min 100 (weighted + modifier)))
    pillars := { clarity := score "clarity", specificity := score "specificity",
                 proof := score "proof", audience := score "audience" } }

/-- An empty structured-data summary (a page with no JSON-LD). -/
def sampleSchemaEmpty : SchemaData :=
  { types := [], hasOrganization := false, hasProduct := false, hasReview := false,
    hasFAQ := false, hasHowTo := false, raw := [] }

/-- A concrete extraction with no content at all. -/
def sampleExtraction : Extraction :=
  { url := "", pageType := "", meta := { title := "", description := "" }, headings := [],
    hero := { headline := "", subheadline := "" }, paragraphs := [], lists := [],
    definitionStatements := [], audienceStatements := [], claims := [], proofPoints := [],
    faqs := [], schema := sampleSchemaEmpty }

/-- A concrete empty site aggregate. -/
def sampleSiteData : SiteData :=
  { homepage := none, allHeadings := [], allDefinitions := [], allAudienceStatements := [],
    allClaims := [], allProofPoints := [], allFAQs := [], pageTypes := [] }

/-- A concrete empty understanding record. -/
def sampleUnderstanding : Understanding :=
  { oneLiner := "", category := "", audience := "", useCases := [], confusions := [],
    missingForConfidence := [], confidence := { score := 0, level := "", reason := "" } }

/-- A homepage extraction whose title is `hello corp`. -/
def helloExtraction : Extraction :=
  { sampleExtraction with meta := { title := "hello corp", description := "" } }

/-- Site data whose homepage title is `hello corp`. -/
def helloSiteData : SiteData :=
  { sampleSiteData with homepage := some helloExtraction }

/-- An understanding whose category is `hello tools`. -/
def helloUnderstanding : Understanding :=
  { sampleUnderstanding with category := "hello tools" }

/-- A homepage extraction whose hero headline is `simple page` — content with
neither question phrasing nor problem phrasing. -/
def quietExtraction : Extraction :=
  { sampleExtraction with hero := { headline := "simple page", subheadline := "" } }

/-- A clarity blocker of severity 100. -/
def clarityBlocker100 : Blocker :=
  { code := "X100", title := "", description := "", pillar := "clarity", severity := 100,
    evidence := [], fixStrategy := "" }

/-- A clarity blocker of severity 1. -/
def clarityBlocker1 : Blocker :=
  { code := "X1", title := "", description := "", pillar := "clarity", severity := 1,
    evidence := [], fixStrategy := "" }

/-- A clarity blocker of severity 50. -/
def clarityBlocker50 : Blocker :=
  { code := "X50", title := "", description := "", pillar := "clarity", severity := 50,
    evidence := [], fixStrategy := "" }

/-- A clarity blocker of severity 60. -/
def clarityBlocker60 : Blocker :=
  { code := "X60", title := "", description := "", pillar := "clarity", severity := 60,
    evidence := [], fixStrategy := "" }

/-- A parsed JSON-LD script block whose single object has no top-level
`@type` and an `@graph` containing one item of type `LocalBusiness`. -/
def graphOnlyBlocks : List (Option (List SchemaEntry)) :=
  [some [{ atType := .absent, graph := some [{ atType := .single "LocalBusiness" }] }]]

/-- A page whose markup contains 21 single-item lists and nothing else. -/
def manyListsDoc : RawDoc :=
  { titleText := "", metaDescription := none, headingTags := [], h1FirstText := "",
    h1ParentFirstP := "", h1NextP := "", pTexts := [],
    listGroups := List.replicate 21 ["item"], qaHeadings := [], schemaBlocks := [] }

/-- A page whose markup contains one two-item list. -/
def oneListDoc : RawDoc :=
  { manyListsDoc with listGroups := [["alpha", "beta"]] }

/-- Two distinct evidence entries. -/
def evidenceA : Evidence := { url := "u1", snippet := "s1", location := "l1" }

/-- Second evidence entry. -/
def evidenceB : Evidence := { url := "u2", snippet := "s2", location := "l2" }

/-- A blocker carrying TWO evidence entries. -/
def twoEvidenceBlocker : Blocker :=
  { code := "B1", title := "t", description := "d", pillar := "clarity", severity := 50,
    evidence := [evidenceA, evidenceB], fixStrategy := "f" }

/-- An enrichment response entry matching `twoEvidenceBlocker`. -/
def matchingEnrichment : Enrichment :=
  { code := "B1", siteSpecificIssue := some "newdesc", concreteExample := some "newsnip",
    specificFix := some "newfix" }

/-- A single-evidence blocker for the enrichment witness. -/
def singleEvidenceBlocker : Blocker :=
  { code := "W8", title := "t", description := "d", pillar := "proof", severity := 40,
    evidence := [evidenceA], fixStrategy := "f" }

theorem foldl_add_severity (l : List Blocker) (a : ℚ) :
    l.foldl (fun sum b => sum + b.severity) a = a + (l.map fun b => b.severity).sum := by
  induction l generalizing a with
  | nil => simp
  | cons b bs ih => simp [ih]; ring

theorem jsRound_mono {x y : ℚ} (h : x ≤ y) : jsRound x ≤ jsRound y :=
  Int.floor_mono (by linarith)

theorem jsRound_hundred : jsRound 100 = 100 := by
  norm_num [jsRound, Int.floor_eq_iff]

theorem maxRound_eq_of {E : ℚ} {z : ℤ} (hz : 0 ≤ z) (h1 : (z : ℚ) ≤ E + 1/2)
    (h2 : E + 1/2 < (z : ℚ) + 1) : max 0 (jsRound E) = z := by
  have hf : jsRound E = z := by
    rw [jsRound, Int.floor_eq_iff]
    constructor
    · exact_mod_cast h1
    · exact_mod_cast h2
  rw [hf, max_eq_right hz]

theorem pillarScore_eq_of_ne_nil (l : List Blocker) (h : l ≠ []) :
    pillarScore l = max 0 (jsRound (100 -
      min (((l.map fun x => x.severity).sum / (l.length : ℚ)) *
            (1 + ((l.length : ℚ) - 1) * (1/5))) 100)) := by
  have hlen : ¬ (l.length = 0) := fun hh => h (List.length_eq_zero.mp hh)
  simp only [pillarScore, if_neg hlen, foldl_add_severity, zero_add]
  norm_num

theorem pillarScore_nil : pillarScore [] = 100 := by
  simp [pillarScore]

theorem penaltyArg_le (T s n : ℚ) (hn : 1 ≤ n) (hs : 0 < s) (hT : T ≤ s * n) :
    (T / n) * (1 + (n - 1) * (1/5)) ≤ ((T + s) / (n + 1)) * (1 + ((n + 1) - 1) * (1/5)) := by
  have hn0 : (0:ℚ) < n := lt_of_lt_of_le one_pos hn
  have hn1 : (0:ℚ) < n + 1 := by linarith
  rw [div_mul_eq_mul_div, div_mul_eq_mul_div, div_le_div_iff₀ hn0 hn1]
  nlinarith [mul_pos hs hn0, mul_pos (mul_pos hs hn0) hn1,
    mul_le_mul_of_nonneg_left hT (by norm_num : (0:ℚ) ≤ 4)]

theorem pillarScore_append_le (l : List Blocker) (b : Blocker)
    (hs : 0 < b.severity)
    (hT : (l.map fun x => x.severity).sum ≤ b.severity * (l.length : ℚ)) :
    pillarScore (l ++ [b]) ≤ pillarScore l := by
  rcases eq_or_ne l [] with rfl | hne
  · rw [List.nil_append, pillarScore_nil, pillarScore_eq_of_ne_nil [b] (by simp)]
    have harg : (([b].map fun x => x.severity).sum / (([b].length : ℕ) : ℚ)) *
        (1 + ((([b].length : ℕ) : ℚ) - 1) * (1/5)) = b.severity := by
      simp
    rw [harg]
    apply max_le (by norm_num)
    calc jsRound (100 - min b.severity 100) ≤ jsRound 100 := by
          apply jsRound_mono
          have : (0:ℚ) ≤ min b.severity 100 := le_min hs.le (by norm_num)
          linarith
      _ = 100 := jsRound_hundred
  · have hlen : (1:ℚ) ≤ (l.length : ℚ) := by
      have h1 : 1 ≤ l.length := List.length_pos.mpr hne
      exact_mod_cast h1
    rw [pillarScore_eq_of_ne_nil l hne, pillarScore_eq_of_ne_nil (l ++ [b]) (by simp)]
    apply max_le_max le_rfl
    apply jsRound_mono
    apply sub_le_sub_left
    apply min_le_min _ le_rfl
    have hsum : ((l ++ [b]).map fun x => x.severity).sum
        = (l.map fun x => x.severity).sum + b.severity := by simp
    have hlen2 : (((l ++ [b]).length : ℕ) : ℚ) = (l.length : ℚ) + 1 := by
      simp only [List.length_append, List.length_cons, List.length_nil]
      push_cast
      ring
    rw [hsum, hlen2]
    exact penaltyArg_le _ _ _ hlen hs hT

theorem pillarScore_eq_spec (l : List Blocker) :
    pillarScore l = specPillarScore (l.map fun b => b.severity) := by
  rcases eq_or_ne l [] with rfl | hne
  · simp [pillarScore_nil, specPillarScore]
  · rw [pillarScore_eq_of_ne_nil l hne]
    have hner : ¬ (l.map fun b => b.severity).isEmpty := by
      cases l with
      | nil => exact absurd rfl hne
      | cons x xs => simp
    rw [specPillarScore, if_neg hner]
    have harg : specMean (l.map fun b => b.severity) *
        (1 + 0.2 * (((l.map fun b => b.severity).length : ℚ) - 1))
        = ((l.map fun x => x.severity).sum / (l.length : ℚ)) *
            (1 + ((l.length : ℚ) - 1) * (1/5)) := by
      simp only [specMean, List.length_map]
      rw [show (0.2 : ℚ) = 1/5 from by norm_num]
      ring
    rw [harg]

/-- C2: `calculateScores` computes exactly the scoring the specification
states: pillar score 100 on an empty pillar and otherwise
`max(0, round(100 - min(avgSeverity * (1 + 0.2*(count-1)), 100)))`, and the
total as the clarity 25 / specificity 35 / proof 25 / audience 15 weighted
sum, clamped to `[0, 100]` after adding the manifest modifier, then
rounded.  Stated as extensional equality with `specCalculateScores`, the
scorer transcribed from the specification's own words. -/
theorem calculateScores_matches_spec (bs : List Blocker) (m : ℚ) :
    calculateScores bs m = specCalculateScores bs m := by
  simp only [calculateScores, specCalculateScores]
  rw [pillarScore_eq_spec (bs.filter fun b => b.pillar == "clarity"),
    pillarScore_eq_spec (bs.filter fun b => b.pillar == "specificity"),
    pillarScore_eq_spec (bs.filter fun b => b.pillar == "proof"),
    pillarScore_eq_spec (bs.filter fun b => b.pillar == "audience")]
  refine congrArg₂ Scores.mk ?_ rfl
  exact congrArg (fun t : ℚ => jsRound (max 0 (min 100 (t + m)))) (by ring)

theorem pillarScore_eval (l : List Blocker) (T : ℚ) (n : ℕ) (hn : n ≠ 0)
    (hlen : l.length = n) (hsum : (l.map fun x => x.severity).sum = T) :
    pillarScore l = max 0 (jsRound (100 - min ((T / (n : ℚ)) * (1 + ((n : ℚ) - 1) * (1/5))) 100)) := by
  have hne : l ≠ [] := by
    intro h
    subst h
    simp at hlen
    exact hn hlen.symm
  rw [pillarScore_eq_of_ne_nil l hne, hsum, hlen]

/-- C1 counterexample: the claimed pillar monotonicity fails on the code.
With a single clarity blocker of severity 100 the clarity score is 0; adding
one more clarity blocker of severity 1 (severity > 0) RAISES the clarity
score to 39, because the added blocker halves the average severity while the
pile-on multiplier only grows from 1 to 1.2. -/
theorem pillar_monotonicity_counterexample :
    0 < clarityBlocker1.severity ∧
    (calculateScores [clarityBlocker100] 0).pillars.clarity <
      (calculateScores [clarityBlocker100, clarityBlocker1] 0).pillars.clarity := by
  refine ⟨by norm_num [clarityBlocker1], ?_⟩
  have h1 : (calculateScores [clarityBlocker100] 0).pillars.clarity
      = pillarScore [clarityBlocker100] := rfl
  have h2 : (calculateScores [clarityBlocker100, clarityBlocker1] 0).pillars.clarity
      = pillarScore [clarityBlocker100, clarityBlocker1] := rfl
  rw [h1, h2]
  have e1 : pillarScore [clarityBlocker100] = 0 := by
    rw [pillarScore_eval [clarityBlocker100] 100 1 (by norm_num) (by simp)
      (by simp [clarityBlocker100])]
    rw [show (100 : ℚ) / ((1:ℕ) : ℚ) * (1 + (((1:ℕ) : ℚ) - 1) * (1/5)) = 100 from by
      push_cast; ring]
    rw [min_self, show (100 : ℚ) - 100 = 0 from by ring]
    exact maxRound_eq_of le_rfl (by norm_num) (by norm_num)
  have e2 : pillarScore [clarityBlocker100, clarityBlocker1] = 39 := by
    rw [pillarScore_eval [clarityBlocker100, clarityBlocker1] 101 2 (by norm_num) (by simp)
      (by simp [clarityBlocker100, clarityBlocker1]; norm_num)]
    rw [show (101 : ℚ) / ((2:ℕ) : ℚ) * (1 + (((2:ℕ) : ℚ) - 1) * (1/5)) = 303/5 from by
      push_cast; ring]
    rw [show min ((303:ℚ)/5) 100 = 303/5 from min_eq_left (by norm_num),
      show (100 : ℚ) - 303/5 = 197/5 from by ring]
    exact maxRound_eq_of (by norm_num) (by norm_num) (by norm_num)
  rw [e1, e2]
  norm_num

/-- C1 amended: adding one more blocker to a pillar never increases that
pillar's score PROVIDED the new blocker's severity is at least the pillar's
current average severity (stated multiplicatively; with an empty pillar any
positive severity qualifies).  The original claim allowed any severity > 0,
which the counterexample refutes. -/
theorem pillar_monotonicity_amended (bs : List Blocker) (b : Blocker) (m : ℚ)
    (hs : 0 < b.severity)
    (hT : ((bs.filter fun x => x.pillar == b.pillar).map fun x => x.severity).sum
      ≤ b.severity * ((bs.filter fun x => x.pillar == b.pillar).length : ℚ)) :
    (b.pillar = "clarity" →
      (calculateScores (bs ++ [b]) m).pillars.clarity ≤
        (calculateScores bs m).pillars.clarity) ∧
    (b.pillar = "specificity" →
      (calculateScores (bs ++ [b]) m).pillars.specificity ≤
        (calculateScores bs m).pillars.specificity) ∧
    (b.pillar = "proof" →
      (calculateScores (bs ++ [b]) m).pillars.proof ≤
        (calculateScores bs m).pillars.proof) ∧
    (b.pillar = "audience" →
      (calculateScores (bs ++ [b]) m).pillars.audience ≤
        (calculateScores bs m).pillars.audience) := by
  have key : ∀ p : String, b.pillar = p →
      pillarScore ((bs ++ [b]).filter fun x => x.pillar == p) ≤
        pillarScore (bs.filter fun x => x.pillar == p) := by
    intro p hp
    rw [List.filter_append]
    have hfb : [b].filter (fun x => x.pillar == p) = [b] := by
      simp [List.filter, hp]
    rw [hfb]
    rw [hp] at hT
    exact pillarScore_append_le _ _ hs hT
  exact ⟨fun hp => key "clarity" hp, fun hp => key "specificity" hp,
    fun hp => key "proof" hp, fun hp => key "audience" hp⟩

/-- Witness for the amended C1 at a concrete input: one clarity blocker of
severity 50, adding a clarity blocker of severity 60 (at least the current
average). -/
theorem pillar_monotonicity_amended_witness :
    (calculateScores ([clarityBlocker50] ++ [clarityBlocker60]) 0).pillars.clarity ≤
      (calculateScores [clarityBlocker50] 0).pillars.clarity :=
  (pillar_monotonicity_amended [clarityBlocker50] clarityBlocker60 0
    (by norm_num [clarityBlocker60])
    (by norm_num [clarityBlocker50, clarityBlocker60, List.filter_cons, List.filter_nil])).1
    rfl

theorem jsRound_eq {x : ℚ} {z : ℤ} (h1 : (z : ℚ) ≤ x + 1/2) (h2 : x + 1/2 < (z : ℚ) + 1) :
    jsRound x = z := by
  rw [jsRound, Int.floor_eq_iff]
  exact ⟨by exact_mod_cast h1, by exact_mod_cast h2⟩

theorem condNat_le_one (b : Bool) : (cond b 1 0 : ℕ) ≤ 1 := by
  cases b <;> simp

theorem alignCount_le_four (s : String) (sd : SiteData) (u : Understanding) :
    alignChecksCount s sd u ≤ 4 := by
  simp only [alignChecksCount]
  exact le_trans
    (add_le_add (add_le_add (add_le_add (condNat_le_one _) (condNat_le_one _))
      (condNat_le_one _)) (condNat_le_one _)) (by norm_num)

theorem alignFrac_ge_half_iff (k : ℕ) : ((k : ℚ)/4 ≥ 0.5) ↔ 2 ≤ k := by
  constructor
  · intro h
    have hq : (2 : ℚ) ≤ (k : ℚ) := by
      rw [ge_iff_le] at h
      nlinarith [h]
    exact_mod_cast hq
  · intro h
    have hq : (2 : ℚ) ≤ (k : ℚ) := by exact_mod_cast h
    rw [ge_iff_le]
    nlinarith [hq]

theorem jsRoundMod_bounds (k : ℕ) (h2 : 2 ≤ k) (h4 : k ≤ 4) :
    jsRound (3 + ((k : ℚ)/4) * 2) = 4 ∨ jsRound (3 + ((k : ℚ)/4) * 2) = 5 := by
  interval_cases k
  · exact Or.inl (jsRound_eq (by norm_num) (by norm_num))
  · exact Or.inr (jsRound_eq (by norm_num) (by norm_num))
  · exact Or.inr (jsRound_eq (by norm_num) (by norm_num))

theorem analyzeLlmsTxt_present (s : String) (sd : SiteData) (u : Understanding)
    (hs : s ≠ "") : analyzeLlmsTxt (some s) sd u = analyzeLlmsTxtPresent s sd u := by
  simp only [analyzeLlmsTxt]
  rw [if_neg hs]

theorem analyzeLlmsTxtPresent_aligned (s : String) (sd : SiteData) (u : Understanding) :
    (analyzeLlmsTxtPresent s sd u).aligned =
      some (decide ((alignChecksCount s sd u : ℚ)/4 ≥ 0.5)) := rfl

theorem analyzeLlmsTxtPresent_modifier (s : String) (sd : SiteData) (u : Understanding) :
    (analyzeLlmsTxtPresent s sd u).modifier =
      if (decide ((alignChecksCount s sd u : ℚ)/4 ≥ 0.5)) = true
      then jsRound (3 + ((alignChecksCount s sd u : ℚ)/4) * 2) else -5 := rfl

/-- C3 counterexample: `aligned = null exactly when the manifest text is
absent` fails: on the present but EMPTY manifest text `some ""` the function
returns `aligned = none` (JavaScript `!llmsTxt` is true for `""`), although
the input is not absent. -/
theorem manifest_aligned_counterexample :
    (analyzeLlmsTxt (some "") sampleSiteData sampleUnderstanding).aligned = none ∧
    (some "" : Option String) ≠ none := by
  exact ⟨rfl, by simp⟩

/-- C3 amended: `aligned = null` exactly when the manifest text is absent OR
empty, in which case the modifier is 0; on a present non-empty manifest,
with ratio the number of passed checks over 4, `aligned = (ratio ≥ 0.5)`,
the modifier is `round(3 + ratio*2)` (which lies in `[3, 5]`) when aligned
and `-5` otherwise; hence the modifier is always in `{0} ∪ [3,5] ∪ {-5}`. -/
theorem manifest_modifier_amended (t : Option String) (sd : SiteData) (u : Understanding) :
    ((analyzeLlmsTxt t sd u).aligned = none ↔ (t = none ∨ t = some "")) ∧
    ((t = none ∨ t = some "") → (analyzeLlmsTxt t sd u).modifier = 0) ∧
    (∀ s : String, t = some s → s ≠ "" →
      ((analyzeLlmsTxt t sd u).aligned =
          some (decide ((alignChecksCount s sd u : ℚ)/4 ≥ 0.5)) ∧
        (((alignChecksCount s sd u : ℚ)/4 ≥ 0.5) →
          (analyzeLlmsTxt t sd u).modifier =
              jsRound (3 + ((alignChecksCount s sd u : ℚ)/4) * 2) ∧
            3 ≤ (analyzeLlmsTxt t sd u).modifier ∧
            (analyzeLlmsTxt t sd u).modifier ≤ 5) ∧
        (¬ ((alignChecksCount s sd u : ℚ)/4 ≥ 0.5) →
          (analyzeLlmsTxt t sd u).modifier = -5))) ∧
    ((analyzeLlmsTxt t sd u).modifier = 0 ∨ (analyzeLlmsTxt t sd u).modifier = -5 ∨
      (3 ≤ (analyzeLlmsTxt t sd u).modifier ∧ (analyzeLlmsTxt t sd u).modifier ≤ 5)) := by
  cases t with
  | none =>
    refine ⟨by simp [analyzeLlmsTxt], fun _ => rfl, ?_, Or.inl rfl⟩
    intro s hs
    exact absurd hs (by simp)
  | some s =>
    by_cases hs : s = ""
    · subst hs
      refine ⟨by simp [analyzeLlmsTxt], fun _ => rfl, ?_, Or.inl rfl⟩
      intro s2 hs2 hne
      exact absurd (Option.some.inj hs2).symm hne
    · rw [analyzeLlmsTxt_present s sd u hs]
      have hk4 := alignCount_le_four s sd u
      have hcore : (((alignChecksCount s sd u : ℚ)/4 ≥ 0.5) →
          (analyzeLlmsTxtPresent s sd u).modifier =
              jsRound (3 + ((alignChecksCount s sd u : ℚ)/4) * 2) ∧
            3 ≤ (analyzeLlmsTxtPresent s sd u).modifier ∧
            (analyzeLlmsTxtPresent s sd u).modifier ≤ 5) ∧
          (¬ ((alignChecksCount s sd u : ℚ)/4 ≥ 0.5) →
            (analyzeLlmsTxtPresent s sd u).modifier = -5) := by
        constructor
        · intro hfrac
          rw [analyzeLlmsTxtPresent_modifier, if_pos (decide_eq_true hfrac)]
          refine ⟨rfl, ?_, ?_⟩
          · rcases jsRoundMod_bounds (alignChecksCount s sd u)
              ((alignFrac_ge_half_iff _).mp hfrac) hk4 with h | h <;> rw [h] <;> norm_num
          · rcases jsRoundMod_bounds (alignChecksCount s sd u)
              ((alignFrac_ge_half_iff _).mp hfrac) hk4 with h | h <;> rw [h] <;> norm_num
        · intro hfrac
          rw [analyzeLlmsTxtPresent_modifier,
            if_neg (fun hc => hfrac (of_decide_eq_true hc))]
      refine ⟨?_, ?_, ?_, ?_⟩
      · rw [analyzeLlmsTxtPresent_aligned]
        simp [hs]
      · intro h
        rcases h with h | h
        · exact absurd h (by simp)
        · exact absurd (Option.some.inj h) hs
      · intro s2 hs2 hne
        have hss : s2 = s := (Option.some.inj hs2).symm
        subst hss
        exact ⟨analyzeLlmsTxtPresent_aligned s2 sd u, hcore.1, hcore.2⟩
      · by_cases hfrac : ((alignChecksCount s sd u : ℚ)/4 ≥ 0.5)
        · exact Or.inr (Or.inr (hcore.1 hfrac).2)
        · exact Or.inr (Or.inl (hcore.2 hfrac))

/-- Witness for the amended C3: on an absent manifest the modifier is 0. -/
theorem manifest_modifier_amended_witness :
    (analyzeLlmsTxt none sampleSiteData sampleUnderstanding).modifier = 0 :=
  (manifest_modifier_amended none sampleSiteData sampleUnderstanding).2.1 (Or.inl rfl)

/-- C9: whenever the manifest is present and judged aligned, the modifier
returned by `analyzeLlmsTxt` is exactly 4 or 5, never 3: the aligned ratios
are 2/4, 3/4 and 4/4, and `round(3 + 2*ratio)` is 4, 5 and 5 there. -/
theorem aligned_modifier_never_three (t : Option String) (sd : SiteData) (u : Understanding)
    (h : (analyzeLlmsTxt t sd u).aligned = some true) :
    (analyzeLlmsTxt t sd u).modifier = 4 ∨ (analyzeLlmsTxt t sd u).modifier = 5 := by
  cases t with
  | none => simp [analyzeLlmsTxt] at h
  | some s =>
    by_cases hs : s = ""
    · subst hs
      simp [analyzeLlmsTxt] at h
    · rw [analyzeLlmsTxt_present s sd u hs] at h ⊢
      rw [analyzeLlmsTxtPresent_aligned] at h
      have hfrac : ((alignChecksCount s sd u : ℚ)/4 ≥ 0.5) :=
        of_decide_eq_true (Option.some.inj h)
      rw [analyzeLlmsTxtPresent_modifier, if_pos (decide_eq_true hfrac)]
      exact jsRoundMod_bounds _ ((alignFrac_ge_half_iff _).mp hfrac)
        (alignCount_le_four s sd u)

/-- Witness for C9: a concrete aligned manifest (`# hello`, title
`hello corp`, category `hello tools`) passes all four checks. -/
theorem aligned_modifier_never_three_witness :
    (analyzeLlmsTxt (some "# hello") helloSiteData helloUnderstanding).modifier = 4 ∨
    (analyzeLlmsTxt (some "# hello") helloSiteData helloUnderstanding).modifier = 5 := by
  refine aligned_modifier_never_three (some "# hello") helloSiteData helloUnderstanding ?_
  have hk : alignChecksCount "# hello" helloSiteData helloUnderstanding = 4 := by decide
  rw [analyzeLlmsTxt_present _ _ _ (by decide), analyzeLlmsTxtPresent_aligned, hk]
  exact congrArg some (decide_eq_true (by norm_num))

theorem jsDedup_aux_nodup {α : Type} [DecidableEq α] (l : List α) (acc : List α)
    (hacc : acc.Nodup) :
    (l.foldl (fun acc x => if x ∈ acc then acc else acc ++ [x]) acc).Nodup := by
  induction l generalizing acc with
  | nil => simpa using hacc
  | cons x xs ih =>
    simp only [List.foldl_cons]
    by_cases hx : x ∈ acc
    · rw [if_pos hx]
      exact ih acc hacc
    · rw [if_neg hx]
      refine ih _ ?_
      rw [List.nodup_append]
      exact ⟨hacc, List.nodup_singleton x, fun a ha hb => hx ((List.mem_singleton.mp hb) ▸ ha)⟩

theorem jsDedup_nodup {α : Type} [DecidableEq α] (l : List α) : (jsDedup l).Nodup :=
  jsDedup_aux_nodup l [] List.nodup_nil

/-- C4 counterexample: the `@graph` scan is NOT the same as the top-level
scan.  A `LocalBusiness` entry nested inside `@graph` matches the claimed
keyword set (`organization`/`localbusiness`) yet leaves `hasOrganization`
false, because the `@graph` branch only checks for `organization`. -/
theorem schema_flags_counterexample :
    (extractSchema graphOnlyBlocks).hasOrganization = false ∧
    (∃ e ∈ (extractSchema graphOnlyBlocks).raw,
      ∃ t ∈ entryGraphTypes e, orgTopMatch t = true) := by
  exact ⟨rfl, by decide⟩

/-- C4 amended: `types` is deduplicated, and each boolean flag is true iff
some successfully parsed raw entry matches the corresponding keyword set —
top-level `@type` values against the top-level sets
(organization/localbusiness, product/softwareapplication,
review/aggregaterating, faqpage/question, howto), and values nested inside
an `@graph` container against the DIFFERENT graph sets (organization,
product, review/rating, faq/question, howto). -/
theorem schema_flags_amended (blocks : List (Option (List SchemaEntry))) :
    (extractSchema blocks).types.Nodup ∧
    ((extractSchema blocks).hasOrganization = true ↔
      ∃ e ∈ (extractSchema blocks).raw,
        (∃ t ∈ entryTopTypes e, orgTopMatch t = true) ∨
        (∃ t ∈ entryGraphTypes e, orgGraphMatch t = true)) ∧
    ((extractSchema blocks).hasProduct = true ↔
      ∃ e ∈ (extractSchema blocks).raw,
        (∃ t ∈ entryTopTypes e, productTopMatch t = true) ∨
        (∃ t ∈ entryGraphTypes e, productGraphMatch t = true)) ∧
    ((extractSchema blocks).hasReview = true ↔
      ∃ e ∈ (extractSchema blocks).raw,
        (∃ t ∈ entryTopTypes e, reviewTopMatch t = true) ∨
        (∃ t ∈ entryGraphTypes e, reviewGraphMatch t = true)) ∧
    ((extractSchema blocks).hasFAQ = true ↔
      ∃ e ∈ (extractSchema blocks).raw,
        (∃ t ∈ entryTopTypes e, faqTopMatch t = true) ∨
        (∃ t ∈ entryGraphTypes e, faqGraphMatch t = true)) ∧
    ((extractSchema blocks).hasHowTo = true ↔
      ∃ e ∈ (extractSchema blocks).raw,
        (∃ t ∈ entryTopTypes e, howToMatch t = true) ∨
        (∃ t ∈ entryGraphTypes e, howToMatch t = true)) := by
  refine ⟨jsDedup_nodup _, ?_, ?_, ?_, ?_, ?_⟩ <;>
    simp [extractSchema, List.any_eq_true]

theorem extractLists_aux (raw : List (List String)) (acc : List (List String))
    (hacc : ∀ g ∈ acc, g.length < 20 ∧ ∀ it ∈ g, it ≠ "" ∧ it.length < 500) :
    ∀ g ∈ raw.foldl
        (fun acc items0 =>
          let items := (items0.map strTrim).filter fun t => t != "" && decide (t.length < 500)
          if items.length > 0 && items.length < 20 then acc ++ [items] else acc)
        acc,
      g.length < 20 ∧ ∀ it ∈ g, it ≠ "" ∧ it.length < 500 := by
  induction raw generalizing acc with
  | nil => simpa using hacc
  | cons items0 rest ih =>
    simp only [List.foldl_cons]
    apply ih
    intro g hg
    split at hg
    case isTrue hcond =>
      rcases List.mem_append.mp hg with h | h
      · exact hacc g h
      · rw [List.mem_singleton] at h
        subst h
        rw [Bool.and_eq_true] at hcond
        refine ⟨?_, ?_⟩
        · simpa using hcond.2
        · intro it hit
          have hp := (List.mem_filter.mp hit).2
          rw [Bool.and_eq_true] at hp
          refine ⟨?_, ?_⟩
          · simpa using hp.1
          · simpa using hp.2
    case isFalse => exact hacc g hg

/-- C5 counterexample: the number of list GROUPS is not capped at 20 — a
page whose markup has 21 one-item lists yields a `lists` field with 21
groups. -/
theorem lists_cap_counterexample :
    (extractPage manyListsDoc "" "" [] [] [] []).lists.length = 21 ∧
    ¬ ((extractPage manyListsDoc "" "" [] [] [] []).lists.length ≤ 20) := by
  exact ⟨by decide, by decide⟩

/-- C5 amended: every GROUP in the `lists` field has fewer than 20 items
(the per-group item count is what is capped, not the number of groups), and
every retained list item is non-empty and has fewer than 500 characters. -/
theorem lists_cap_amended (doc : RawDoc) (url pageType : String)
    (dp ap cp pp : List (String → Option (List String))) :
    ∀ g ∈ (extractPage doc url pageType dp ap cp pp).lists,
      g.length < 20 ∧ ∀ it ∈ g, it ≠ "" ∧ it.length < 500 := by
  have hlists : (extractPage doc url pageType dp ap cp pp).lists
      = extractLists doc.listGroups := rfl
  rw [hlists]
  exact extractLists_aux doc.listGroups [] (by simp)

/-- Witness for the amended C5 at a concrete page with one two-item list. -/
theorem lists_cap_amended_witness :
    (["alpha", "beta"] : List String).length < 20 ∧
    ∀ it ∈ (["alpha", "beta"] : List String), it ≠ "" ∧ it.length < 500 :=
  lists_cap_amended oneListDoc "" "" [] [] [] [] ["alpha", "beta"] (by decide)

/-- C6: when no page has any structured-data type, `checkSchemaMarkup`
returns exactly the single `SPECIFICITY_NO_SCHEMA` finding — the early
return skips the finer organization/review/FAQ schema checks. -/
theorem schema_shortcircuit (sd : SiteData) (extractions : List Extraction)
    (h : ∀ e ∈ extractions, e.schema.types = []) :
    checkSchemaMarkup sd extractions = [noSchemaBlocker] := by
  have hAny : (extractions.any fun e => decide (e.schema.types.length > 0)) = false := by
    rw [Bool.eq_false_iff]
    intro hc
    rcases List.any_eq_true.mp hc with ⟨e, he, hp⟩
    rw [h e he] at hp
    simp at hp
  simp [checkSchemaMarkup, hAny]

/-- Witness for C6 on a concrete one-page site with no structured data. -/
theorem schema_shortcircuit_witness :
    checkSchemaMarkup sampleSiteData [sampleExtraction] = [noSchemaBlocker] :=
  schema_shortcircuit sampleSiteData [sampleExtraction] (by decide)

theorem findDefinitionStatements_length (ps : List (String → Option (List String)))
    (ts : List String) : (findDefinitionStatements ps ts).length ≤ 10 := by
  simp only [findDefinitionStatements]
  rw [List.length_take]
  exact min_le_left _ _

theorem findClaims_length (ps : List (String → Option (List String)))
    (ts : List String) : (findClaims ps ts).length ≤ 15 := by
  simp only [findClaims]
  rw [List.length_take]
  exact min_le_left _ _

theorem crawlLoop_length_le (fetch : String → Option String) (origin : String)
    (paths : List String) (results : List CrawledPage) (crawled : List String)
    (h : results.length ≤ 8) :
    (crawlLoop fetch origin paths results crawled).length ≤ 8 := by
  induction paths generalizing results crawled with
  | nil => simpa [crawlLoop] using h
  | cons p rest ih =>
    rw [crawlLoop]
    by_cases h8 : results.length ≥ 8
    · rw [if_pos h8]
      exact h
    · rw [if_neg h8]
      push_neg at h8
      by_cases hc : (origin ++ p) ∈ crawled
      · rw [if_pos hc]
        exact ih _ _ h
      · rw [if_neg hc]
        by_cases hsk : shouldSkipPath p = true
        · rw [if_pos hsk]
          exact ih _ _ h
        · rw [if_neg hsk]
          cases hf : fetch (origin ++ p) with
          | some html =>
            simp only [hf]
            refine ih _ _ ?_
            rw [List.length_append]
            simp only [List.length_cons, List.length_nil]
            omega
          | none =>
            simp only [hf]
            exact ih _ _ h

/-- C7: cap invariants — for any input, the per-page extraction has at most
30 paragraphs, at most 10 definition statements and at most 15 claims, and
the crawler's page list (homepage included) has at most 8 pages. -/
theorem caps_invariant :
    (∀ (doc : RawDoc) (url pageType : String)
        (dp ap cp pp : List (String → Option (List String))),
      (extractPage doc url pageType dp ap cp pp).paragraphs.length ≤ 30 ∧
      (extractPage doc url pageType dp ap cp pp).definitionStatements.length ≤ 10 ∧
      (extractPage doc url pageType dp ap cp pp).claims.length ≤ 15) ∧
    (∀ (fetch : String → Option String) (origin homepageHtml : String)
        (discoveredLinks : List String),
      (crawlSitePages fetch origin homepageHtml discoveredLinks).length ≤ 8) := by
  constructor
  · intro doc url pageType dp ap cp pp
    refine ⟨?_, ?_, ?_⟩
    · have hp : (extractPage doc url pageType dp ap cp pp).paragraphs
          = ((doc.pTexts.map strTrim).filter fun t =>
              decide (t.length > 30) && decide (t.length < 2000)).take 30 := rfl
      rw [hp, List.length_take]
      exact min_le_left _ _
    · exact findDefinitionStatements_length dp _
    · exact findClaims_length cp _
  · intro fetch origin homepageHtml discoveredLinks
    exact crawlLoop_length_le fetch origin _ _ _ (by norm_num)

theorem enrichOne_key (es : List Enrichment) (b b2 : Blocker)
    (h : enrichOne es b = Except.ok b2) :
    b2.code = b.code ∧ b2.title = b.title ∧ b2.pillar = b.pillar ∧ b2.severity = b.severity := by
  unfold enrichOne at h
  split at h
  · injection h with h
    subst h
    exact ⟨rfl, rfl, rfl, rfl⟩
  · split at h
    · injection h with h
      subst h
      exact ⟨rfl, rfl, rfl, rfl⟩
    · split at h
      · split at h
        · exact Except.noConfusion h
        · injection h with h
          subst h
          exact ⟨rfl, rfl, rfl, rfl⟩
      · exact Except.noConfusion h

theorem tryMapEnrich_keys (es : List Enrichment) (bs : List Blocker) (l : List Blocker)
    (h : tryMapEnrich es bs = Except.ok l) :
    l.map (fun b => (b.code, b.title, b.pillar, b.severity))
      = bs.map fun b => (b.code, b.title, b.pillar, b.severity) := by
  induction bs generalizing l with
  | nil =>
    simp only [tryMapEnrich] at h
    injection h with h
    subst h
    rfl
  | cons b rest ih =>
    cases h1 : enrichOne es b with
    | error e =>
      simp only [tryMapEnrich, h1] at h
      exact Except.noConfusion h
    | ok b2 =>
      cases h2 : tryMapEnrich es rest with
      | error e =>
        simp only [tryMapEnrich, h1, h2] at h
        exact Except.noConfusion h
      | ok l2 =>
        simp only [tryMapEnrich, h1, h2] at h
        injection h with h
        subst h
        simp only [List.map_cons]
        rw [ih l2 h2]
        have hk := enrichOne_key es b b2 h1
        rw [hk.1, hk.2.1, hk.2.2.1, hk.2.2.2]

theorem tryMapEnrich_id (es : List Enrichment) (bs : List Blocker)
    (h : ∀ e ∈ es, ∀ b ∈ bs, e.code ≠ b.code) :
    tryMapEnrich es bs = Except.ok bs := by
  induction bs with
  | nil => rfl
  | cons b rest ih =>
    have hone : enrichOne es b = Except.ok b := by
      have hfind : es.find? (fun e => e.code == b.code) = none := by
        rw [List.find?_eq_none]
        intro e he
        simpa using h e he b (by simp)
      simp only [enrichOne, hfind]
    have hrest := ih fun e he b2 hb2 => h e he b2 (List.mem_cons_of_mem _ hb2)
    simp only [tryMapEnrich, hone, hrest]

/-- C8 counterexample: enrichment does not merely replace the first evidence
SNIPPET — it replaces the whole evidence list by a single entry built from
the first one, dropping every further entry.  A blocker with two evidence
entries and a matching enrichment comes back with one. -/
theorem enrich_evidence_counterexample :
    (enrichBlockersWithGPT [twoEvidenceBlocker] (some [matchingEnrichment])).map
        (fun b => b.evidence.length) = [1] ∧
    [twoEvidenceBlocker].map (fun b => b.evidence.length) = [2] :=
  ⟨rfl, rfl⟩

/-- C8 amended: `enrichBlockersWithGPT` returns a list of the same length
and order in which every blocker keeps its code, title, pillar and severity
(so only description, evidence and fixStrategy can change, and no new codes
are introduced); a failed or unparseable response returns the input
unchanged, as does a response none of whose codes matches. -/
theorem enrich_preserves_blockers (blockers : List Blocker)
    (response : Option (List Enrichment)) :
    ((enrichBlockersWithGPT blockers response).map
        (fun b => (b.code, b.title, b.pillar, b.severity))
      = blockers.map fun b => (b.code, b.title, b.pillar, b.severity)) ∧
    (response = none → enrichBlockersWithGPT blockers response = blockers) ∧
    (∀ es, response = some es →
      (∀ e ∈ es, ∀ b ∈ blockers, e.code ≠ b.code) →
      enrichBlockersWithGPT blockers response = blockers) := by
  refine ⟨?_, ?_, ?_⟩
  · unfold enrichBlockersWithGPT
    by_cases hemp : blockers.isEmpty
    · rw [if_pos hemp]
    · rw [if_neg hemp]
      cases response with
      | none => rfl
      | some es =>
        cases h : tryMapEnrich es blockers with
        | ok l =>
          simp only [h]
          exact tryMapEnrich_keys es blockers l h
        | error e => simp only [h]
  · intro h
    subst h
    unfold enrichBlockersWithGPT
    split
    · rfl
    · rfl
  · intro es hresp hnone
    subst hresp
    unfold enrichBlockersWithGPT
    by_cases hemp : blockers.isEmpty
    · rw [if_pos hemp]
    · rw [if_neg hemp]
      simp only [tryMapEnrich_id es blockers hnone]

/-- Witness for the amended C8: an enrichment response with no matching code
leaves a concrete blocker list unchanged. -/
theorem enrich_preserves_blockers_witness :
    enrichBlockersWithGPT [singleEvidenceBlocker] (some []) = [singleEvidenceBlocker] :=
  (enrich_preserves_blockers [singleEvidenceBlocker] (some [])).2.2 [] rfl (by simp)

theorem pillarScore_with65_le (l : List Blocker) (q : Blocker)
    (hq : q.severity = 65) (hpos : ∀ x ∈ l, 0 ≤ x.severity) :
    pillarScore (l ++ [q]) ≤ 87 := by
  rw [pillarScore_eq_of_ne_nil _ (by simp)]
  have hT : (0:ℚ) ≤ (l.map fun x => x.severity).sum := by
    apply List.sum_nonneg
    intro x hx
    rcases List.mem_map.mp hx with ⟨b, hb, rfl⟩
    exact hpos b hb
  have hn0 : (0:ℚ) ≤ (l.length : ℚ) := Nat.cast_nonneg _
  have hsum : ((l ++ [q]).map fun x => x.severity).sum
      = (l.map fun x => x.severity).sum + 65 := by simp [hq]
  have hlen : (((l ++ [q]).length : ℕ) : ℚ) = (l.length : ℚ) + 1 := by
    simp only [List.length_append, List.length_cons, List.length_nil]
    push_cast
    ring
  rw [hsum, hlen]
  have hn1 : (0:ℚ) < (l.length : ℚ) + 1 := by linarith
  have hpre : (13 : ℚ) ≤
      (((l.map fun x => x.severity).sum + 65) / ((l.length : ℚ) + 1)) *
        (1 + (((l.length : ℚ) + 1) - 1) * (1/5)) := by
    rw [div_mul_eq_mul_div, le_div_iff₀ hn1]
    nlinarith [mul_nonneg hT hn0, mul_nonneg hT (by norm_num : (0:ℚ) ≤ 1/5)]
  apply max_le (by norm_num)
  refine le_trans (jsRound_mono ?_)
    (le_of_eq (jsRound_eq (by norm_num) (by norm_num) : jsRound (87 : ℚ) = 87))
  have hmin : (13 : ℚ) ≤
      min ((((l.map fun x => x.severity).sum + 65) / ((l.length : ℚ) + 1)) *
        (1 + (((l.length : ℚ) + 1) - 1) * (1/5))) 100 :=
    le_min hpre (by norm_num)
  linarith

/-- C10: the question-based-framing finding of `checkProblemFraming` (code
`CLARITY_NO_QUERY_MATCHING`, severity 65) is tagged with pillar `audience`,
not `clarity`; whenever it fires it therefore counts toward the audience
pillar in `calculateScores`: appended to any blocker list of non-negative
severities it pushes the audience pillar score to at most 87 — strictly
below the no-blocker score of 100 — while leaving the clarity pillar score
unchanged. -/
theorem query_matching_audience_pillar (sd : SiteData) (extractions : List Extraction)
    (bs : List Blocker) (m : ℚ) (b : Blocker)
    (hmem : b ∈ checkProblemFraming sd extractions)
    (hcode : b.code = "CLARITY_NO_QUERY_MATCHING")
    (hpos : ∀ x ∈ bs, 0 ≤ x.severity) :
    b.pillar = "audience" ∧ b.severity = 65 ∧
    (calculateScores (bs ++ [b]) m).pillars.audience < 100 ∧
    (calculateScores (bs ++ [b]) m).pillars.clarity
      = (calculateScores bs m).pillars.clarity := by
  have hb : b = noQueryMatchingBlocker := by
    simp only [checkProblemFraming] at hmem
    rcases List.mem_append.mp hmem with h | h
    · split at h
      · rw [List.mem_singleton] at h
        subst h
        exact absurd hcode (by simp [noProblemFramingBlocker])
      · exact absurd h (List.not_mem_nil b)
    · split at h
      · rw [List.mem_singleton] at h
        exact h
      · exact absurd h (List.not_mem_nil b)
  subst hb
  refine ⟨rfl, rfl, ?_, ?_⟩
  · have haud : (calculateScores (bs ++ [noQueryMatchingBlocker]) m).pillars.audience
        = pillarScore ((bs ++ [noQueryMatchingBlocker]).filter
            fun x => x.pillar == "audience") := rfl
    rw [haud, List.filter_append]
    have hfb : [noQueryMatchingBlocker].filter (fun x => x.pillar == "audience")
        = [noQueryMatchingBlocker] := rfl
    rw [hfb]
    have hle := pillarScore_with65_le (bs.filter fun x => x.pillar == "audience")
      noQueryMatchingBlocker rfl (fun x hx => hpos x (List.mem_filter.mp hx).1)
    exact lt_of_le_of_lt hle (by norm_num)
  · have hc1 : (calculateScores (bs ++ [noQueryMatchingBlocker]) m).pillars.clarity
        = pillarScore ((bs ++ [noQueryMatchingBlocker]).filter
            fun x => x.pillar == "clarity") := rfl
    have hc2 : (calculateScores bs m).pillars.clarity
        = pillarScore (bs.filter fun x => x.pillar == "clarity") := rfl
    rw [hc1, hc2, List.filter_append]
    have hfb : [noQueryMatchingBlocker].filter (fun x => x.pillar == "clarity") = [] := rfl
    rw [hfb, List.append_nil]

/-- Witness for C10 on a concrete quiet page (hero `simple page`, no
questions, no problem phrasing): the finding fires and drives the audience
pillar while clarity stays put. -/
theorem query_matching_audience_pillar_witness :
    noQueryMatchingBlocker.pillar = "audience" ∧ noQueryMatchingBlocker.severity = 65 ∧
    (calculateScores ([] ++ [noQueryMatchingBlocker]) 0).pillars.audience < 100 ∧
    (calculateScores ([] ++ [noQueryMatchingBlocker]) 0).pillars.clarity
      = (calculateScores [] 0).pillars.clarity :=
  query_matching_audience_pillar sampleSiteData [quietExtraction] [] 0 noQueryMatchingBlocker
    (by rw [show checkProblemFraming sampleSiteData [quietExtraction]
          = [noQueryMatchingBlocker] from rfl]
        exact List.mem_singleton.mpr rfl)
    rfl (by simp)
